import Mathlib

/-!
Verification of the follow-the-sun time-to-appearance model.

The TypeScript source is shallowly embedded in Lean.  JavaScript `number`
arithmetic is idealised: branches and interpolators that use only field
operations are embedded over `ℚ` (exact and computable), while the
darkness mapping (which uses `Math.log10`) and the angle conversions
(which use `Math.PI`) are embedded over `ℝ`.  JavaScript's `%` operator
(sign-of-dividend remainder, i.e. truncated division) is modelled by
`jsModQ` / `jsModR`.  Division by zero, which in JavaScript produces
`NaN`, is totalised to `0` by Lean's field division; every place where
this matters is noted at the corresponding theorem.
-/

/-- JavaScript truncation toward zero (`Math.trunc`), on `ℚ`. -/
def jsTruncQ (x : ℚ) : ℤ := if 0 ≤ x then ⌊x⌋ else ⌈x⌉

/-- JavaScript `%` (remainder with the sign of the dividend), on `ℚ`. -/
def jsModQ (a b : ℚ) : ℚ := a - b * jsTruncQ (a / b)

/-- JavaScript truncation toward zero (`Math.trunc`), on `ℝ`. -/
noncomputable def jsTruncR (x : ℝ) : ℤ := if 0 ≤ x then ⌊x⌋ else ⌈x⌉

/-- JavaScript `%` (remainder with the sign of the dividend), on `ℝ`. -/
noncomputable def jsModR (a b : ℝ) : ℝ := a - b * jsTruncR (a / b)

/-- `lerp` from `useSunCalculations.ts`: linear interpolation helper. -/
def lerp (start finish t : ℚ) : ℚ := start + (finish - start) * t

/-- `smoothStep` from `useSunCalculations.ts`: cubic easing `t²(3−2t)`. -/
def smoothStep (t : ℚ) : ℚ := t * t * (3 - 2 * t)

/-! ## MoonPhaseEngine (`useMoonCalculations.ts`) -/

/-- `julianDay` from `useMoonCalculations.ts`, on calendar components
(year, month, day as read by `getFullYear`/`getMonth()+1`/`getDate`,
and the fractional hour `getHours + getMinutes/60 + getSeconds/3600`). -/
def julianDay (year month : ℤ) (day : ℤ) (hour : ℚ) : ℚ :=
  let year2 : ℤ := if month ≤ 2 then year - 1 else year
  let month2 : ℤ := if month ≤ 2 then month + 12 else month
  let a : ℤ := ⌊(year2 : ℚ) / 100⌋
  let b : ℤ := 2 - a + ⌊(a : ℚ) / 4⌋
  (⌊(365.25 : ℚ) * ((year2 : ℚ) + 4716)⌋ : ℚ)
    + (⌊(30.6001 : ℚ) * ((month2 : ℚ) + 1)⌋ : ℚ)
    + (day : ℚ) + (b : ℚ) - 1524.5 + hour / 24

/-- The synodic month length used throughout `useMoonCalculations.ts`. -/
def synodicMonth : ℚ := 29.53058867

/-- Julian day of the reference new moon `2000-01-06T18:14:00Z`
(date components taken in UTC). -/
def referenceJD : ℚ := julianDay 2000 1 6 (18 + 14 / 60)

/-- `daysSinceNewMoon` from `useMoonCalculations.ts`: days since the
reference new moon, reduced by `((d % s) + s) % s` into `[0, s)`. -/
def daysSinceNewMoon (year month day : ℤ) (hour : ℚ) : ℚ :=
  let daysSince := julianDay year month day hour - referenceJD
  jsModQ (jsModQ daysSince synodicMonth + synodicMonth) synodicMonth

/-- `getMoonPhase` from `useMoonCalculations.ts`. -/
def getMoonPhase (year month day : ℤ) (hour : ℚ) : ℚ :=
  daysSinceNewMoon year month day hour / synodicMonth

/-- `getMoonIllumination` from `useMoonCalculations.ts`: triangular
function of the phase. -/
def getMoonIllumination (year month day : ℤ) (hour : ℚ) : ℚ :=
  let phase := getMoonPhase year month day hour
  if phase < 0.5 then phase * 2 * 100 else (1 - phase) * 2 * 100

/-- `moonIlluminationToLux` from `useMoonCalculations.ts`. -/
def moonIlluminationToLux (illumination : ℚ) : ℚ :=
  let minLux : ℚ := 0.001
  let maxLux : ℚ := 0.27
  minLux + (maxLux - minLux) * (illumination / 100)

/-- `getMoonLux` from `useMoonCalculations.ts`. -/
def getMoonLux (year month day : ℤ) (hour : ℚ) : ℚ :=
  moonIlluminationToLux (getMoonIllumination year month day hour)

/-! ## IlluminanceModel (`calculateLux` in `useSunCalculations.ts`)

The source computes `moonLux` by calling `getMoonLux` on the reference
date whose time-of-day fields are overwritten from `minutes`; here the
resulting moon lux is passed as the explicit parameter `moonLux`. -/

/-- `calculateLux` from `useSunCalculations.ts` (the boundary-aware,
ten-segment version). -/
def calculateLux (minutes sunrise sunset solarNoon
    civilTwilightBegin civilTwilightEnd
    nauticalTwilightBegin nauticalTwilightEnd
    astroTwilightBegin astroTwilightEnd moonLux : ℚ) : ℚ :=
  let TWILIGHT_TRANSITION : ℚ := 30
  let preDawnTransition := astroTwilightBegin - TWILIGHT_TRANSITION
  let postDuskTransition := astroTwilightEnd + TWILIGHT_TRANSITION
  if minutes < preDawnTransition ∨ minutes > postDuskTransition then
    moonLux
  else if minutes ≥ preDawnTransition ∧ minutes < astroTwilightBegin then
    let duration := astroTwilightBegin - preDawnTransition
    let progress := (minutes - preDawnTransition) / duration
    let easedProgress := smoothStep progress
    let nightLux : ℚ := 0.001 + moonLux
    lerp nightLux 0.1 easedProgress
  else if minutes ≥ astroTwilightBegin ∧ minutes < nauticalTwilightBegin then
    let duration := nauticalTwilightBegin - astroTwilightBegin
    let progress := (minutes - astroTwilightBegin) / duration
    let easedProgress := smoothStep progress
    lerp 0.1 1 easedProgress
  else if minutes ≥ nauticalTwilightBegin ∧ minutes < civilTwilightBegin then
    let duration := civilTwilightBegin - nauticalTwilightBegin
    let progress := (minutes - nauticalTwilightBegin) / duration
    let easedProgress := smoothStep progress
    lerp 1 10 easedProgress
  else if minutes ≥ civilTwilightBegin ∧ minutes < sunrise then
    let progress := (minutes - civilTwilightBegin) / (sunrise - civilTwilightBegin)
    let easedProgress := progress * progress
    lerp 10 100 easedProgress
  else if minutes ≥ sunrise ∧ minutes < solarNoon then
    let duration := solarNoon - sunrise
    let progress := (minutes - sunrise) / duration
    if progress < 0.2 then
      let earlyProgress := progress / 0.2
      let steepProgress := smoothStep earlyProgress
      lerp 100 1000 steepProgress
    else
      let lateProgress := (progress - 0.2) / 0.8
      let curveProgress := 1 - (1 - lateProgress) ^ 2
      lerp 1000 100000 curveProgress
  else if minutes ≥ solarNoon ∧ minutes < sunset then
    let duration := sunset - solarNoon
    let progress := (minutes - solarNoon) / duration
    if progress < 0.5 then
      let earlyProgress := progress / 0.5
      let smooth := 1 - smoothStep earlyProgress * 0.05
      100000 * smooth
    else
      let lateProgress := (progress - 0.5) / 0.5
      let curveProgress := smoothStep lateProgress
      lerp (100000 * 0.95) 100 curveProgress
  else if minutes ≥ sunset ∧ minutes ≤ civilTwilightEnd then
    let duration := civilTwilightEnd - sunset
    let progress := (minutes - sunset) / duration
    let easedProgress := progress * progress
    lerp 100 10 easedProgress
  else if minutes > civilTwilightEnd ∧ minutes ≤ nauticalTwilightEnd then
    let duration := nauticalTwilightEnd - civilTwilightEnd
    let progress := (minutes - civilTwilightEnd) / duration
    let easedProgress := smoothStep progress
    lerp 10 1 easedProgress
  else if minutes > nauticalTwilightEnd ∧ minutes ≤ astroTwilightEnd then
    let duration := astroTwilightEnd - nauticalTwilightEnd
    let progress := (minutes - nauticalTwilightEnd) / duration
    let easedProgress := smoothStep progress
    lerp 1 0.1 easedProgress
  else if minutes > astroTwilightEnd ∧ minutes ≤ postDuskTransition then
    let duration := postDuskTransition - astroTwilightEnd
    let progress := (minutes - astroTwilightEnd) / duration
    let easedProgress := smoothStep progress
    let nightLux : ℚ := 0.001 + moonLux
    lerp 0.1 nightLux easedProgress
  else
    0.001 + moonLux

/-! ## HueInterpolator / SaturationInterpolator (`useColorCalculations.ts`) -/

/-- `calculateHue` from `useColorCalculations.ts`.  The source assigns a
`normalizedMinutes` local that is never read afterwards; it is omitted
here (dead code).  JavaScript `% 360` is `jsModQ · 360`. -/
def calculateHue (minutes sunrise sunset solarNoon
    civilTwilightBegin civilTwilightEnd : ℚ) : ℚ :=
  if minutes < civilTwilightBegin ∨ minutes > civilTwilightEnd then
    let nightStart := civilTwilightEnd
    let nightEnd := civilTwilightBegin + 24 * 60
    let nightDuration := nightEnd - nightStart
    let minutesIntoNight :=
      if minutes > civilTwilightEnd then minutes - nightStart
      else 24 * 60 - nightStart + minutes
    let progress := minutesIntoNight / nightDuration
    if progress < 0.4 then
      let earlyProgress := progress / 0.4
      240 + earlyProgress * 5
    else if progress < 0.6 then 245
    else
      let lateProgress := (progress - 0.6) / 0.4
      245 - lateProgress * 10
  else if minutes ≥ civilTwilightBegin ∧ minutes < sunrise then
    let progress := (minutes - civilTwilightBegin) / (sunrise - civilTwilightBegin)
    if progress < 0.4 then
      let earlyProgress := progress / 0.4
      240 - earlyProgress * 20
    else
      let lateProgress := (progress - 0.4) / 0.6
      jsModQ (220 + 200 * lateProgress) 360
  else if minutes ≥ sunrise ∧ minutes < solarNoon then
    let progress := (minutes - sunrise) / (solarNoon - sunrise)
    if progress < 0.3 then 0 + progress / 0.3 * 30
    else if progress < 0.7 then 30 + (progress - 0.3) / 0.4 * 30
    else 60
  else if minutes ≥ solarNoon ∧ minutes < sunset then
    let progress := (minutes - solarNoon) / (sunset - solarNoon)
    if progress < 0.5 then 60
    else
      let lateProgress := (progress - 0.5) / 0.5
      60 - lateProgress * 60
  else if minutes ≥ sunset ∧ minutes ≤ civilTwilightEnd then
    let progress := (minutes - sunset) / (civilTwilightEnd - sunset)
    if progress < 0.3 then 0 + progress / 0.3 * 20
    else if progress < 0.6 then
      let midProgress := (progress - 0.3) / 0.3
      20 - midProgress * 20
    else
      let lateProgress := (progress - 0.6) / 0.4
      jsModQ (360 - lateProgress * 120) 360
  else 240

/-- `calculateSaturation` from `useColorCalculations.ts`. -/
def calculateSaturation (minutes sunrise sunset solarNoon
    civilTwilightBegin civilTwilightEnd darkValue : ℚ) : ℚ :=
  if minutes ≥ sunrise ∧ minutes < sunset then
    let distanceFromNoon := |minutes - solarNoon|
    let maxDistance := max (solarNoon - sunrise) (sunset - solarNoon)
    let normalizedDistance := min 1 (distanceFromNoon / maxDistance)
    8 + normalizedDistance * 7
  else if (minutes ≥ civilTwilightBegin ∧ minutes < sunrise) ∨
      (minutes ≥ sunset ∧ minutes ≤ civilTwilightEnd) then
    let isMorningTwilight := minutes < sunrise
    let twilightStart := if isMorningTwilight then civilTwilightBegin else sunset
    let twilightEnd := if isMorningTwilight then sunrise else civilTwilightEnd
    let progress := (minutes - twilightStart) / (twilightEnd - twilightStart)
    12 + progress * 3
  else
    10 + darkValue / 100 * 2

/-- `getComplementaryHue` from `useColorCalculations.ts`. -/
def getComplementaryHue (hue : ℚ) : ℚ := jsModQ (hue + 180) 360

/-! ## Composable-level queries and fallbacks

`SunSchedule` packages the nine boundary times already converted to
minutes-since-midnight, exactly the nine `timeToMinutes` results the
composables compute from `sunInfo.value.results`.  An absent
`sunInfo.value` (the `null` check in each computed) is `Option.none`. -/

structure SunSchedule where
  sunrise : ℚ
  sunset : ℚ
  solar_noon : ℚ
  civil_twilight_begin : ℚ
  civil_twilight_end : ℚ
  nautical_twilight_begin : ℚ
  nautical_twilight_end : ℚ
  astronomical_twilight_begin : ℚ
  astronomical_twilight_end : ℚ

/-- `bgHue` from `useColorCalculations.ts`: `0` when `sunInfo` is null,
otherwise `calculateHue` at the current minutes. -/
def bgHue (sunInfo : Option SunSchedule) (minutes : ℚ) : ℚ :=
  match sunInfo with
  | none => 0
  | some s =>
    calculateHue minutes s.sunrise s.sunset s.solar_noon
      s.civil_twilight_begin s.civil_twilight_end

/-- `bgSaturation` from `useColorCalculations.ts`: `10` when `sunInfo`
is null, otherwise `calculateSaturation`. -/
def bgSaturation (sunInfo : Option SunSchedule) (minutes darkValue : ℚ) : ℚ :=
  match sunInfo with
  | none => 10
  | some s =>
    calculateSaturation minutes s.sunrise s.sunset s.solar_noon
      s.civil_twilight_begin s.civil_twilight_end darkValue

/-- `currentLux` from `useSunCalculations.ts`: `0` when `sunInfo` is
null, otherwise `calculateLux` (moon lux passed explicitly). -/
def currentLux (sunInfo : Option SunSchedule) (minutes moonLux : ℚ) : ℚ :=
  match sunInfo with
  | none => 0
  | some s =>
    calculateLux minutes s.sunrise s.sunset s.solar_noon
      s.civil_twilight_begin s.civil_twilight_end
      s.nautical_twilight_begin s.nautical_twilight_end
      s.astronomical_twilight_begin s.astronomical_twilight_end moonLux

/-! ## TimeNormalizer -/

/-- A JavaScript number that is either `NaN` or an (idealised) rational.
`new Date(badString)` is an Invalid Date whose `getHours()` etc. are
`NaN`, and `NaN` propagates through arithmetic. -/
inductive JSNum where
  | nan : JSNum
  | num : ℚ → JSNum
deriving DecidableEq

def JSNum.add : JSNum → JSNum → JSNum
  | num a, num b => num (a + b)
  | _, _ => nan

def JSNum.mul : JSNum → JSNum → JSNum
  | num a, num b => num (a * b)
  | _, _ => nan

/-- Division; the only divisor the source uses is the literal `60`,
so the JavaScript `x/0 = ±Infinity` case never arises. -/
def JSNum.div : JSNum → JSNum → JSNum
  | num a, num b => num (a / b)
  | _, _ => nan

/-- The hour/minute/second components `new Date(timeStr)` exposes for a
successfully parsed timestamp; `none` models an unparsable string
(Invalid Date), for which every component accessor returns `NaN`. -/
structure DateParts where
  hours : ℚ
  minutes : ℚ
  seconds : ℚ

def getHours : Option DateParts → JSNum
  | none => .nan
  | some d => .num d.hours

def getMinutes : Option DateParts → JSNum
  | none => .nan
  | some d => .num d.minutes

def getSeconds : Option DateParts → JSNum
  | none => .nan
  | some d => .num d.seconds

/-- `timeToMinutes` from `useSunCalculations.ts`, keyed by the parse
result of its string argument.  The body never throws, so the `Except`
codomain (used to make the spec's claimed `ParseError` path statable)
is always `Except.ok`; an unparsable timestamp yields `ok JSNum.nan`
because `getHours`/`getMinutes`/`getSeconds` of an Invalid Date are
`NaN` and `NaN` propagates through `h*60 + m + s/60`. -/
def timeToMinutes (parse : Option DateParts) : Except String JSNum :=
  Except.ok
    ((((getHours parse).mul (.num 60)).add (getMinutes parse)).add
      ((getSeconds parse).div (.num 60)))

/-- `minutesToAngle` from `useSunCalculations.ts`. -/
noncomputable def minutesToAngle (minutes : ℝ) : ℝ :=
  let progress := minutes / (24 * 60)
  progress * (2 * Real.pi) - Real.pi / 2

/-- `angleToMinutes` from `useSunCalculations.ts`; `%` is `jsModR`. -/
noncomputable def angleToMinutes (angle : ℝ) : ℝ :=
  let normalizedAngle0 := jsModR angle (2 * Real.pi)
  let normalizedAngle :=
    if normalizedAngle0 < 0 then normalizedAngle0 + 2 * Real.pi
    else normalizedAngle0
  let shiftedAngle := normalizedAngle + Real.pi / 2
  let progress := shiftedAngle / (2 * Real.pi)
  jsModR progress 1 * (24 * 60)

/-! ## `findNextEvent` (`useSunCalculations.ts`) -/

/-- One iteration of the `for (const event of events)` loop in
`findNextEvent`: the running state is `none` while
`minMinutesUntil === Infinity` and `some (name, minMinutesUntil)`
afterwards. -/
def nextEventStep (minutes : ℚ) (st : Option (String × ℚ)) (e : String × ℚ) :
    Option (String × ℚ) :=
  let mu0 := e.2 - minutes
  let mu := if mu0 ≤ 0 then mu0 + 24 * 60 else mu0
  match st with
  | none => some (e.1, mu)
  | some (n, m) => if mu < m then some (e.1, mu) else some (n, m)

/-- The event list `findNextEvent` scans, in source order. -/
def scheduleEvents (s : SunSchedule) : List (String × ℚ) :=
  [("Astronomical Twilight Begin", s.astronomical_twilight_begin),
   ("Nautical Twilight Begin", s.nautical_twilight_begin),
   ("Civil Twilight Begin", s.civil_twilight_begin),
   ("Sunrise", s.sunrise),
   ("Solar Noon", s.solar_noon),
   ("Sunset", s.sunset),
   ("Civil Twilight End", s.civil_twilight_end),
   ("Nautical Twilight End", s.nautical_twilight_end),
   ("Astronomical Twilight End", s.astronomical_twilight_end),
   ("Midnight", 24 * 60)]

/-- `findNextEvent` from `useSunCalculations.ts`. -/
def findNextEvent (sunInfo : Option SunSchedule) (minutes : ℚ) : String × ℚ :=
  match sunInfo with
  | none => ("--", 0)
  | some s =>
    match (scheduleEvents s).foldl (nextEventStep minutes) none with
    | none => ("--", 0)
    | some (n, m) => (n, m)

/-! ### `findNextEvent` invariants -/

/-- The ten event names `findNextEvent` can report (the nine schedule
boundaries plus the synthetic Midnight entry). -/
def eventNames : List String :=
  ["Astronomical Twilight Begin", "Nautical Twilight Begin",
   "Civil Twilight Begin", "Sunrise", "Solar Noon", "Sunset",
   "Civil Twilight End", "Nautical Twilight End",
   "Astronomical Twilight End", "Midnight"]

/-- Invariant carried through the `findNextEvent` loop: the running
best, when present, names a known event and its wait time is in
`(0, 1440]`. -/
def GoodState (st : Option (String × ℚ)) : Prop :=
  match st with
  | none => True
  | some (n, m) => n ∈ eventNames ∧ 0 < m ∧ m ≤ 1440

/-! ## DarknessMapper (`luxToDarkness` in `useSunCalculations.ts`)

`Math.log10` forces this part of the embedding onto `ℝ`.  The local
`curved` expression of the source is factored out as `easeInOutCubic`
so that its monotonicity can be stated once. -/

/-- The `curved` expression inside `luxToDarkness`: ease-in cubic
`4t³` for `t < 0.5`, ease-out cubic `1 − (−2t+2)³/2` for `t ≥ 0.5`. -/
noncomputable def easeInOutCubic (t : ℝ) : ℝ :=
  if t < 0.5 then 4 * t * t * t else 1 - (-2 * t + 2) ^ 3 / 2

/-- `luxToDarkness` from `useSunCalculations.ts`: clamp to
`[0.001, 100000]`, log₁₀-rescale to `[0,1]`, ease, rescale to `[0,100]`. -/
noncomputable def luxToDarkness (lux : ℝ) : ℝ :=
  let minLux : ℝ := 0.001
  let maxLux : ℝ := 100000
  let logMin := Real.logb 10 minLux
  let logMax := Real.logb 10 maxLux
  let logLux := Real.logb 10 (max minLux (min maxLux lux))
  let linearDarkness := 100 - (logLux - logMin) / (logMax - logMin) * 100
  let t := linearDarkness / 100
  let curved := easeInOutCubic t
  let darkness := curved * 100
  max 0 (min 100 darkness)

/-- `calculateDarkValue` from `useSunCalculations.ts`: `50` when
`sunInfo` is null, otherwise `luxToDarkness (calculateLux …)`; the
rational lux value is read as a real. -/
noncomputable def calculateDarkValue (sunInfo : Option SunSchedule)
    (minutes moonLux : ℚ) : ℝ :=
  match sunInfo with
  | none => 50
  | some s =>
    luxToDarkness
      ((calculateLux minutes s.sunrise s.sunset s.solar_noon
        s.civil_twilight_begin s.civil_twilight_end
        s.nautical_twilight_begin s.nautical_twilight_end
        s.astronomical_twilight_begin s.astronomical_twilight_end
        moonLux : ℚ) : ℝ)

lemma logb_ten_thousandth : Real.logb 10 0.001 = -3 := by
  have h1 : (0.001 : ℝ) = ((10 : ℝ) ^ (3 : ℕ))⁻¹ := by norm_num
  rw [h1, Real.logb_inv, ← Real.rpow_natCast (10 : ℝ) 3,
    Real.logb_rpow (by norm_num) (by norm_num)]
  norm_num

lemma logb_hundred_thousand : Real.logb 10 100000 = 5 := by
  have h1 : (100000 : ℝ) = (10 : ℝ) ^ (5 : ℕ) := by norm_num
  rw [h1, ← Real.rpow_natCast (10 : ℝ) 5,
    Real.logb_rpow (by norm_num) (by norm_num)]
  norm_num

lemma easeInOutCubic_mem {t : ℝ} (h0 : 0 ≤ t) (h1 : t ≤ 1) :
    0 ≤ easeInOutCubic t ∧ easeInOutCubic t ≤ 1 := by
  unfold easeInOutCubic
  split_ifs with h
  · refine ⟨by positivity, ?_⟩
    have htt : t * t ≤ 1 / 4 := by nlinarith
    have httt : t * t * t ≤ 1 / 8 := by nlinarith
    linarith
  · push_neg at h
    constructor
    · have hub : (-2 * t + 2) ^ 3 ≤ 1 :=
        pow_le_one₀ (by linarith) (by linarith)
      linarith
    · have hlb : 0 ≤ (-2 * t + 2) ^ 3 :=
        pow_nonneg (by linarith) 3
      linarith

lemma easeInOutCubic_strictMono {s t : ℝ} (hs : 0 ≤ s) (hst : s < t)
    (ht : t ≤ 1) : easeInOutCubic s < easeInOutCubic t := by
  unfold easeInOutCubic
  split_ifs with h1 h2 h2
  · have hcube : s ^ 3 < t ^ 3 := by
      apply pow_lt_pow_left₀ hst hs
      norm_num
    nlinarith [hcube]
  · push_neg at h2
    have hss : s * s ≤ 1 / 4 := by nlinarith
    have hsss : s * s * s < 1 / 8 := by nlinarith
    have hub : (-2 * t + 2) ^ 3 ≤ 1 :=
      pow_le_one₀ (by linarith) (by linarith)
    linarith
  · push_neg at h1
    linarith
  · push_neg at h1 h2
    have key : (-2 * t + 2) ^ 3 < (-2 * s + 2) ^ 3 := by
      apply pow_lt_pow_left₀ (by linarith) (by linarith)
      norm_num
    linarith

/-- On the clamp range, `luxToDarkness` is strictly decreasing. -/
lemma luxToDarkness_strictAnti {x y : ℝ} (hx : 0.001 ≤ x) (hxy : x < y)
    (hy : y ≤ 100000) : luxToDarkness y < luxToDarkness x := by
  have hx' : max (0.001 : ℝ) (min 100000 x) = x := by
    rw [min_eq_right (by linarith), max_eq_right hx]
  have hy' : max (0.001 : ℝ) (min 100000 y) = y := by
    rw [min_eq_right hy, max_eq_right (by linarith)]
  have hlog : Real.logb 10 x < Real.logb 10 y :=
    Real.logb_lt_logb (by norm_num) (by linarith) hxy
  have hlogx_lb : (-3 : ℝ) ≤ Real.logb 10 x := by
    rw [← logb_ten_thousandth]
    exact Real.logb_le_logb_of_le (by norm_num) (by norm_num) hx
  have hlogy_ub : Real.logb 10 y ≤ 5 := by
    rw [← logb_hundred_thousand]
    exact Real.logb_le_logb_of_le (by norm_num) (by linarith) hy
  simp only [luxToDarkness]
  rw [hx', hy', logb_ten_thousandth, logb_hundred_thousand]
  set tx : ℝ := (100 - (Real.logb 10 x - -3) / (5 - -3) * 100) / 100 with htx
  set ty : ℝ := (100 - (Real.logb 10 y - -3) / (5 - -3) * 100) / 100 with hty
  have hty0 : 0 ≤ ty := by rw [hty]; nlinarith
  have htyx : ty < tx := by rw [htx, hty]; nlinarith
  have htx1 : tx ≤ 1 := by rw [htx]; nlinarith
  have hmono := easeInOutCubic_strictMono hty0 htyx htx1
  have hbx := easeInOutCubic_mem (le_of_lt (lt_of_le_of_lt hty0 htyx)) htx1
  have hby := easeInOutCubic_mem hty0 (le_of_lt (lt_of_lt_of_le htyx htx1))
  have ex : max 0 (min 100 (easeInOutCubic tx * 100)) = easeInOutCubic tx * 100 := by
    rw [min_eq_right (by nlinarith [hbx.2]), max_eq_right (by nlinarith [hbx.1])]
  have ey : max 0 (min 100 (easeInOutCubic ty * 100)) = easeInOutCubic ty * 100 := by
    rw [min_eq_right (by nlinarith [hby.2]), max_eq_right (by nlinarith [hby.1])]
  rw [ex, ey]
  nlinarith

/-- `luxToDarkness` at the dark clamp endpoint equals 100 exactly. -/
lemma luxToDarkness_min : luxToDarkness 0.001 = 100 := by
  have hc : ((0.001 : ℝ) ⊔ 100000 ⊓ 0.001) = 0.001 := by
    norm_num [min_def, max_def]
  simp only [luxToDarkness, easeInOutCubic]
  rw [hc, logb_ten_thousandth, logb_hundred_thousand]
  norm_num [min_def, max_def]

/-- `luxToDarkness` at the bright clamp endpoint equals 0 exactly. -/
lemma luxToDarkness_max : luxToDarkness 100000 = 0 := by
  have hc : ((0.001 : ℝ) ⊔ 100000 ⊓ 100000) = 100000 := by
    norm_num [min_def, max_def]
  simp only [luxToDarkness, easeInOutCubic]
  rw [hc, logb_ten_thousandth, logb_hundred_thousand]
  norm_num [min_def, max_def]

/-! ## Shared helper lemmas -/

/-- In deep night (before the pre-dawn transition window), `calculateLux`
returns the moon lux alone. -/
lemma calculateLux_deepNight
    (minutes sunrise sunset solarNoon civilTwilightBegin civilTwilightEnd
     nauticalTwilightBegin nauticalTwilightEnd
     astroTwilightBegin astroTwilightEnd moonLux : ℚ)
    (h : minutes < astroTwilightBegin - 30) :
    calculateLux minutes sunrise sunset solarNoon
      civilTwilightBegin civilTwilightEnd
      nauticalTwilightBegin nauticalTwilightEnd
      astroTwilightBegin astroTwilightEnd moonLux = moonLux := by
  simp only [calculateLux]
  rw [if_pos (Or.inl h)]

lemma moonIlluminationToLux_zero : moonIlluminationToLux 0 = 0.001 := by
  norm_num [moonIlluminationToLux]

lemma moonIlluminationToLux_hundred : moonIlluminationToLux 100 = 0.27 := by
  norm_num [moonIlluminationToLux]

/-! ## Claims -/

/-- C1 (counterexample): with the section-8 scenario schedule
(astronomical twilight 04:30/19:30, nautical 05:00/19:00, civil
05:30/18:30, sunrise 06:00, noon 12:00, sunset 18:00) and full moon
(illumination 100%), the lux at t=00:00 is exactly 0.27 — not 0.271 as
claimed: the deep-night branch returns the moon lux alone, without
adding the 0.001 night base.  The 0.001 gap is a model difference, not
floating error. -/
theorem midnight_full_moon_lux_is_027 :
    calculateLux 0 360 1080 720 330 1110 300 1140 270 1170
      (moonIlluminationToLux 100) = 0.27 ∧ (0.27 : ℚ) ≠ 0.271 := by
  constructor
  · rw [calculateLux_deepNight _ _ _ _ _ _ _ _ _ _ _ (by norm_num)]
    exact moonIlluminationToLux_hundred
  · norm_num

/-- C1 (amended): for any schedule whose astronomical-twilight begin is
more than 30 minutes after midnight (so minute 0 is in deep night),
the model at t=00:00 yields lux exactly 0.001 and darkness 100 at new
moon (illumination 0), and lux exactly 0.27 — the full-moon moon lux,
with no night-base added — and darkness strictly below the new-moon
midnight darkness at full moon (illumination 100). -/
theorem deep_night_midnight_lux_darkness
    (sunrise sunset solarNoon civilTwilightBegin civilTwilightEnd
     nauticalTwilightBegin nauticalTwilightEnd
     astroTwilightBegin astroTwilightEnd : ℚ)
    (h : 30 < astroTwilightBegin) :
    calculateLux 0 sunrise sunset solarNoon
      civilTwilightBegin civilTwilightEnd
      nauticalTwilightBegin nauticalTwilightEnd
      astroTwilightBegin astroTwilightEnd (moonIlluminationToLux 0)
        = 0.001 ∧
    luxToDarkness ((calculateLux 0 sunrise sunset solarNoon
      civilTwilightBegin civilTwilightEnd
      nauticalTwilightBegin nauticalTwilightEnd
      astroTwilightBegin astroTwilightEnd (moonIlluminationToLux 0) : ℚ) : ℝ)
        = 100 ∧
    calculateLux 0 sunrise sunset solarNoon
      civilTwilightBegin civilTwilightEnd
      nauticalTwilightBegin nauticalTwilightEnd
      astroTwilightBegin astroTwilightEnd (moonIlluminationToLux 100)
        = 0.27 ∧
    luxToDarkness ((calculateLux 0 sunrise sunset solarNoon
      civilTwilightBegin civilTwilightEnd
      nauticalTwilightBegin nauticalTwilightEnd
      astroTwilightBegin astroTwilightEnd (moonIlluminationToLux 100) : ℚ) : ℝ)
      < luxToDarkness ((calculateLux 0 sunrise sunset solarNoon
          civilTwilightBegin civilTwilightEnd
          nauticalTwilightBegin nauticalTwilightEnd
          astroTwilightBegin astroTwilightEnd
          (moonIlluminationToLux 0) : ℚ) : ℝ) := by
  have h0 : calculateLux 0 sunrise sunset solarNoon
      civilTwilightBegin civilTwilightEnd
      nauticalTwilightBegin nauticalTwilightEnd
      astroTwilightBegin astroTwilightEnd (moonIlluminationToLux 0) = 0.001 := by
    rw [calculateLux_deepNight _ _ _ _ _ _ _ _ _ _ _ (by linarith)]
    exact moonIlluminationToLux_zero
  have h100 : calculateLux 0 sunrise sunset solarNoon
      civilTwilightBegin civilTwilightEnd
      nauticalTwilightBegin nauticalTwilightEnd
      astroTwilightBegin astroTwilightEnd (moonIlluminationToLux 100) = 0.27 := by
    rw [calculateLux_deepNight _ _ _ _ _ _ _ _ _ _ _ (by linarith)]
    exact moonIlluminationToLux_hundred
  have hcast0 : ((calculateLux 0 sunrise sunset solarNoon
      civilTwilightBegin civilTwilightEnd
      nauticalTwilightBegin nauticalTwilightEnd
      astroTwilightBegin astroTwilightEnd (moonIlluminationToLux 0) : ℚ) : ℝ)
      = (0.001 : ℝ) := by rw [h0]; norm_num
  have hcast100 : ((calculateLux 0 sunrise sunset solarNoon
      civilTwilightBegin civilTwilightEnd
      nauticalTwilightBegin nauticalTwilightEnd
      astroTwilightBegin astroTwilightEnd (moonIlluminationToLux 100) : ℚ) : ℝ)
      = (0.27 : ℝ) := by rw [h100]; norm_num
  refine ⟨h0, ?_, h100, ?_⟩
  · rw [hcast0, luxToDarkness_min]
  · rw [hcast0, hcast100]
    exact luxToDarkness_strictAnti (le_refl _) (by norm_num) (by norm_num)

/-- C1 (witness): the amended theorem at the section-8 scenario
schedule. -/
theorem deep_night_midnight_lux_darkness_witness :
    (30 : ℚ) < 270 ∧
    (calculateLux 0 360 1080 720 330 1110 300 1140 270 1170
      (moonIlluminationToLux 0) = 0.001 ∧
    luxToDarkness ((calculateLux 0 360 1080 720 330 1110 300 1140 270 1170
      (moonIlluminationToLux 0) : ℚ) : ℝ) = 100 ∧
    calculateLux 0 360 1080 720 330 1110 300 1140 270 1170
      (moonIlluminationToLux 100) = 0.27 ∧
    luxToDarkness ((calculateLux 0 360 1080 720 330 1110 300 1140 270 1170
      (moonIlluminationToLux 100) : ℚ) : ℝ)
      < luxToDarkness ((calculateLux 0 360 1080 720 330 1110 300 1140 270 1170
          (moonIlluminationToLux 0) : ℚ) : ℝ)) :=
  ⟨by norm_num,
   deep_night_midnight_lux_darkness 360 1080 720 330 1110 300 1140 270 1170
     (by norm_num)⟩

/-- C2: `luxToDarkness` is strictly monotonically decreasing on
`[0.001, 100000]`, with `luxToDarkness 0.001 = 100` and
`luxToDarkness 100000 = 0` (exactly, in the idealised reals). -/
theorem darkness_strictly_decreasing_and_endpoints :
    (∀ x y : ℝ, 0.001 ≤ x → x < y → y ≤ 100000 →
      luxToDarkness y < luxToDarkness x) ∧
    luxToDarkness 0.001 = 100 ∧ luxToDarkness 100000 = 0 :=
  ⟨fun _ _ hx hxy hy => luxToDarkness_strictAnti hx hxy hy,
   luxToDarkness_min, luxToDarkness_max⟩

/-- C2 (witness): the strict-monotonicity component applied at the
endpoints of the clamp range. -/
theorem darkness_strictly_decreasing_witness :
    luxToDarkness 100000 < luxToDarkness 0.001 :=
  darkness_strictly_decreasing_and_endpoints.1 0.001 100000
    (by norm_num) (by norm_num) (by norm_num)

/-- C3 (counterexample): with a null schedule the background hue
fallback is 0, not the claimed 240 — `bgHue` returns 0 before ever
reaching `calculateHue`'s 240 default. -/
theorem null_schedule_hue_is_zero :
    bgHue none 0 = 0 ∧ (0 : ℚ) ≠ 240 := ⟨rfl, by norm_num⟩

/-- C3 (amended): with a null schedule every query returns its coded
fallback — hue 0 (not 240), saturation 10, darkness 50, lux 0 —
rather than failing. -/
theorem null_schedule_fallbacks (minutes darkValue moonLux : ℚ) :
    bgHue none minutes = 0 ∧
    bgSaturation none minutes darkValue = 10 ∧
    calculateDarkValue none minutes moonLux = 50 ∧
    currentLux none minutes moonLux = 0 :=
  ⟨rfl, rfl, rfl, rfl⟩

/-- C4: at a zero-length segment (sunset coinciding with civil twilight
end, at 18:00) the interpolators do NOT guard the division by zero.  In
JavaScript `progress = 0/0` is `NaN`, so `calculateLux` and
`calculateSaturation` return `NaN`; under this embedding's `x/0 = 0`
totalisation they return the segment's START anchors (100 lux, 12%
saturation) — in neither semantics the claimed instantaneous step to
the segment's END values (10 lux, 15%). -/
theorem zero_length_segment_unguarded :
    calculateLux 1080 360 1080 720 330 1080 300 1140 270 1170 0.001 = 100 ∧
    (100 : ℚ) ≠ 10 ∧
    calculateSaturation 1080 360 1080 720 330 1080 0 = 12 ∧
    (12 : ℚ) ≠ 15 := by
  refine ⟨?_, by norm_num, ?_, by norm_num⟩
  · norm_num [calculateLux, lerp, smoothStep]
  · norm_num [calculateSaturation]

/-- C9 (counterexample): for an unparsable timestamp (parse result
`none`, e.g. the string "not-a-date"), `timeToMinutes` does not fail:
it returns the value `NaN` (as `Except.ok JSNum.nan`), because
`new Date` never throws and the `NaN` components propagate through the
arithmetic. -/
theorem timeToMinutes_unparsable_returns_nan :
    timeToMinutes none = Except.ok JSNum.nan := rfl

/-- C9 (amended): `timeToMinutes` never fails with any error for any
parse result; on an unparsable timestamp it silently returns `NaN`
instead of surfacing a `ParseError`. -/
theorem timeToMinutes_never_errors :
    ∀ parse : Option DateParts, ∃ v, timeToMinutes parse = Except.ok v :=
  fun _ => ⟨_, rfl⟩

/-! ### jsModQ range lemmas (for the moon phase) -/

lemma jsModQ_mem_of_nonneg {a b : ℚ} (ha : 0 ≤ a) (hb : 0 < b) :
    0 ≤ jsModQ a b ∧ jsModQ a b < b := by
  unfold jsModQ jsTruncQ
  rw [if_pos (div_nonneg ha hb.le)]
  have h1 : (⌊a / b⌋ : ℚ) * b ≤ a := (le_div_iff₀ hb).mp (Int.floor_le (a / b))
  have h2 : a < ((⌊a / b⌋ : ℚ) + 1) * b :=
    (div_lt_iff₀ hb).mp (Int.lt_floor_add_one (a / b))
  constructor <;> nlinarith

lemma jsModQ_mem_of_neg {a b : ℚ} (ha : a < 0) (hb : 0 < b) :
    -b < jsModQ a b ∧ jsModQ a b ≤ 0 := by
  unfold jsModQ jsTruncQ
  rw [if_neg (not_le.mpr (div_neg_of_neg_of_pos ha hb))]
  have h1 : a ≤ (⌈a / b⌉ : ℚ) * b := (div_le_iff₀ hb).mp (Int.le_ceil (a / b))
  have hc : (⌈a / b⌉ : ℚ) < a / b + 1 := Int.ceil_lt_add_one (a / b)
  have h2 : ((⌈a / b⌉ : ℚ) - 1) * b < a :=
    (lt_div_iff₀ hb).mp (by linarith)
  constructor <;> nlinarith

lemma synodicMonth_pos : (0 : ℚ) < synodicMonth := by norm_num [synodicMonth]

lemma daysSinceNewMoon_mem (year month day : ℤ) (hour : ℚ) :
    0 ≤ daysSinceNewMoon year month day hour ∧
    daysSinceNewMoon year month day hour < synodicMonth := by
  unfold daysSinceNewMoon
  have hs := synodicMonth_pos
  set x := julianDay year month day hour - referenceJD with hx
  have hmem : -synodicMonth < jsModQ x synodicMonth ∧
      jsModQ x synodicMonth < synodicMonth := by
    rcases le_or_lt 0 x with h0 | h0
    · have h := jsModQ_mem_of_nonneg h0 hs
      exact ⟨by linarith [h.1], h.2⟩
    · have h := jsModQ_mem_of_neg h0 hs
      exact ⟨h.1, by linarith [h.2]⟩
  exact jsModQ_mem_of_nonneg (by linarith [hmem.1]) hs

/-- C6: for every calendar date, the moon phase lies in `[0,1)`; the
illumination is the triangular function of the phase (`phase·200` on
the waxing half, `(1−phase)·200` on the waning half, exactly 0 at
phase 0 and exactly 100 at phase 0.5); and the moon lux is the linear
interpolation `0.001 + (0.27−0.001)·illumination/100`. -/
theorem moon_triangular_illumination_and_lux
    (year month day : ℤ) (hour : ℚ) :
    0 ≤ getMoonPhase year month day hour ∧
    getMoonPhase year month day hour < 1 ∧
    (getMoonPhase year month day hour < 0.5 →
      getMoonIllumination year month day hour =
        getMoonPhase year month day hour * 200) ∧
    (0.5 ≤ getMoonPhase year month day hour →
      getMoonIllumination year month day hour =
        (1 - getMoonPhase year month day hour) * 200) ∧
    (getMoonPhase year month day hour = 0 →
      getMoonIllumination year month day hour = 0) ∧
    (getMoonPhase year month day hour = 0.5 →
      getMoonIllumination year month day hour = 100) ∧
    getMoonLux year month day hour =
      0.001 + (0.27 - 0.001) * (getMoonIllumination year month day hour / 100) := by
  have hs := synodicMonth_pos
  have hd := daysSinceNewMoon_mem year month day hour
  have hp0 : 0 ≤ getMoonPhase year month day hour :=
    div_nonneg hd.1 hs.le
  have hp1 : getMoonPhase year month day hour < 1 := by
    rw [getMoonPhase, div_lt_one hs]; exact hd.2
  refine ⟨hp0, hp1, ?_, ?_, ?_, ?_, ?_⟩
  · intro h
    simp only [getMoonIllumination, if_pos h]
    ring
  · intro h
    simp only [getMoonIllumination, if_neg (not_lt.mpr h)]
    ring
  · intro h
    simp only [getMoonIllumination, h]
    norm_num
  · intro h
    simp only [getMoonIllumination, h]
    norm_num
  · simp only [getMoonLux, moonIlluminationToLux]

/-- C6 (witness): at the reference new moon date (2000-01-06, 18:14
UTC) the phase is in range and the waxing-half formula applies. -/
theorem moon_triangular_witness :
    getMoonPhase 2000 1 6 (18 + 14 / 60) < 0.5 ∧
    getMoonIllumination 2000 1 6 (18 + 14 / 60) =
      getMoonPhase 2000 1 6 (18 + 14 / 60) * 200 :=
  ⟨by norm_num [getMoonPhase, daysSinceNewMoon, referenceJD, julianDay,
      jsModQ, jsTruncQ, synodicMonth],
   (moon_triangular_illumination_and_lux 2000 1 6 (18 + 14 / 60)).2.2.1
     (by norm_num [getMoonPhase, daysSinceNewMoon, referenceJD, julianDay,
        jsModQ, jsTruncQ, synodicMonth])⟩

/-- C7: for a strictly ordered schedule and any darkness in `[0,100]`,
`calculateSaturation` always returns a value in `[8,20]`, at every
time of day. -/
theorem saturation_within_band
    (minutes sunrise sunset solarNoon civilTwilightBegin civilTwilightEnd
     darkValue : ℚ)
    (h1 : civilTwilightBegin < sunrise) (h2 : sunrise < solarNoon)
    (h3 : solarNoon < sunset) (h4 : sunset < civilTwilightEnd)
    (h5 : 0 ≤ darkValue) (h6 : darkValue ≤ 100)
    (_h7 : 0 ≤ minutes) (_h8 : minutes < 1440) :
    8 ≤ calculateSaturation minutes sunrise sunset solarNoon
        civilTwilightBegin civilTwilightEnd darkValue ∧
    calculateSaturation minutes sunrise sunset solarNoon
        civilTwilightBegin civilTwilightEnd darkValue ≤ 20 := by
  simp only [calculateSaturation]
  split_ifs with hday htw hmorn
  · -- day branch
    have hmaxpos : 0 < max (solarNoon - sunrise) (sunset - solarNoon) :=
      lt_max_of_lt_left (by linarith)
    have hq0 : 0 ≤ |minutes - solarNoon| / max (solarNoon - sunrise) (sunset - solarNoon) :=
      div_nonneg (abs_nonneg _) hmaxpos.le
    have hn0 : 0 ≤ min 1 (|minutes - solarNoon| / max (solarNoon - sunrise) (sunset - solarNoon)) :=
      le_min (by norm_num) hq0
    have hn1 : min 1 (|minutes - solarNoon| / max (solarNoon - sunrise) (sunset - solarNoon)) ≤ 1 :=
      min_le_left _ _
    constructor <;> nlinarith
  · -- morning twilight
    have hge : civilTwilightBegin ≤ minutes := by
      rcases htw with h | h
      · exact h.1
      · exfalso; linarith [h.1]
    have hdpos : 0 < sunrise - civilTwilightBegin := by linarith
    have hp0 : 0 ≤ (minutes - civilTwilightBegin) / (sunrise - civilTwilightBegin) :=
      div_nonneg (by linarith) hdpos.le
    have hp1 : (minutes - civilTwilightBegin) / (sunrise - civilTwilightBegin) ≤ 1 := by
      rw [div_le_one hdpos]; linarith
    constructor <;> nlinarith
  · -- evening twilight
    have hmem : sunset ≤ minutes ∧ minutes ≤ civilTwilightEnd := by
      rcases htw with h | h
      · exact absurd h.2 hmorn
      · exact h
    have hdpos : 0 < civilTwilightEnd - sunset := by linarith
    have hp0 : 0 ≤ (minutes - sunset) / (civilTwilightEnd - sunset) :=
      div_nonneg (by linarith [hmem.1]) hdpos.le
    have hp1 : (minutes - sunset) / (civilTwilightEnd - sunset) ≤ 1 := by
      rw [div_le_one hdpos]; linarith [hmem.2]
    constructor <;> nlinarith
  · -- night branch
    constructor <;> nlinarith

/-- C7 (witness): the band theorem at the section-8 scenario schedule,
noon, darkness 0. -/
theorem saturation_within_band_witness :
    8 ≤ calculateSaturation 720 360 1080 720 330 1110 0 ∧
    calculateSaturation 720 360 1080 720 330 1110 0 ≤ 20 :=
  saturation_within_band 720 360 1080 720 330 1110 0
    (by norm_num) (by norm_num) (by norm_num) (by norm_num)
    (by norm_num) (by norm_num) (by norm_num) (by norm_num)

/-- C8: for a valid schedule (both civil-twilight boundaries strictly
inside the day, in order), the hue at minute 0 equals the hue at
minute 1440 exactly: both fall in the night branch and compute the
same night progress `(1440 − civilTwilightEnd) / nightDuration`. -/
theorem hue_continuous_across_midnight
    (sunrise sunset solarNoon civilTwilightBegin civilTwilightEnd : ℚ)
    (h1 : 0 < civilTwilightBegin) (h2 : civilTwilightBegin < civilTwilightEnd)
    (h3 : civilTwilightEnd < 1440) :
    calculateHue 0 sunrise sunset solarNoon civilTwilightBegin civilTwilightEnd =
    calculateHue 1440 sunrise sunset solarNoon civilTwilightBegin civilTwilightEnd := by
  simp only [calculateHue]
  rw [if_pos (Or.inl h1 : (0:ℚ) < civilTwilightBegin ∨ (0:ℚ) > civilTwilightEnd),
    if_pos (Or.inr (by linarith) : (1440:ℚ) < civilTwilightBegin ∨ (1440:ℚ) > civilTwilightEnd),
    if_neg (by linarith : ¬ (0:ℚ) > civilTwilightEnd),
    if_pos (by linarith : (1440:ℚ) > civilTwilightEnd)]
  norm_num

/-- C8 (witness): midnight hue continuity at the section-8 scenario
schedule. -/
theorem hue_continuous_across_midnight_witness :
    calculateHue 0 360 1080 720 330 1110 =
    calculateHue 1440 360 1080 720 330 1110 :=
  hue_continuous_across_midnight 360 1080 720 330 1110
    (by norm_num) (by norm_num) (by norm_num)

lemma nextEventStep_good {minutes : ℚ} (h7 : 0 ≤ minutes)
    (h8 : minutes < 1440) {st : Option (String × ℚ)} {e : String × ℚ}
    (hst : GoodState st) (he : e.1 ∈ eventNames ∧ 0 ≤ e.2 ∧ e.2 ≤ 1440) :
    GoodState (nextEventStep minutes st e) ∧ nextEventStep minutes st e ≠ none := by
  by_cases hle : e.2 - minutes ≤ 0
  · have hmu1 : 0 < e.2 - minutes + 24 * 60 := by linarith [he.2.1]
    have hmu2 : e.2 - minutes + 24 * 60 ≤ 1440 := by linarith
    rcases st with _ | ⟨n, m⟩
    · simp only [nextEventStep, GoodState]
      rw [if_pos hle]
      exact ⟨⟨he.1, hmu1, hmu2⟩, by simp⟩
    · simp only [nextEventStep, GoodState] at hst ⊢
      rw [if_pos hle]
      split_ifs with hlt
      · exact ⟨⟨he.1, hmu1, hmu2⟩, by simp⟩
      · exact ⟨hst, by simp⟩
  · push_neg at hle
    have hmu1 : 0 < e.2 - minutes := by linarith
    have hmu2 : e.2 - minutes ≤ 1440 := by linarith [he.2.2]
    rcases st with _ | ⟨n, m⟩
    · simp only [nextEventStep, GoodState]
      rw [if_neg (not_le.mpr hle)]
      exact ⟨⟨he.1, hmu1, hmu2⟩, by simp⟩
    · simp only [nextEventStep, GoodState] at hst ⊢
      rw [if_neg (not_le.mpr hle)]
      split_ifs with hlt
      · exact ⟨⟨he.1, hmu1, hmu2⟩, by simp⟩
      · exact ⟨hst, by simp⟩

lemma foldl_nextEventStep_good {minutes : ℚ} (h7 : 0 ≤ minutes)
    (h8 : minutes < 1440) :
    ∀ (l : List (String × ℚ)) (st : Option (String × ℚ)),
      (∀ e ∈ l, e.1 ∈ eventNames ∧ 0 ≤ e.2 ∧ e.2 ≤ 1440) →
      GoodState st →
      GoodState (l.foldl (nextEventStep minutes) st) ∧
      (st ≠ none ∨ l ≠ [] →
        l.foldl (nextEventStep minutes) st ≠ none) := by
  intro l
  induction l with
  | nil =>
    intro st _ hst
    exact ⟨hst, fun h => by
      rcases h with h | h
      · simpa using h
      · exact absurd rfl h⟩
  | cons e tl ih =>
    intro st hl hst
    have he := hl e (List.mem_cons_self e tl)
    have htl : ∀ x ∈ tl, x.1 ∈ eventNames ∧ 0 ≤ x.2 ∧ x.2 ≤ 1440 :=
      fun x hx => hl x (List.mem_cons_of_mem e hx)
    have hstep := nextEventStep_good h7 h8 hst he
    have := ih (nextEventStep minutes st e) htl hstep.1
    refine ⟨by simpa using this.1, fun _ => ?_⟩
    simpa using this.2 (Or.inl hstep.2)

/-- C10: for every non-null schedule whose nine boundaries lie in
`[0, 1440)` (as `timeToMinutes` guarantees) and every current time in
`[0, 1440)`, `findNextEvent` reports a wait strictly greater than 0
and at most 1440 minutes, and an event name that is one of the nine
boundary names or Midnight. -/
theorem findNextEvent_bounds (s : SunSchedule) (minutes : ℚ)
    (h7 : 0 ≤ minutes) (h8 : minutes < 1440)
    (hb : ∀ e ∈ scheduleEvents s, 0 ≤ e.2 ∧ e.2 ≤ 1440) :
    0 < (findNextEvent (some s) minutes).2 ∧
    (findNextEvent (some s) minutes).2 ≤ 1440 ∧
    (findNextEvent (some s) minutes).1 ∈ eventNames := by
  have hl : ∀ e ∈ scheduleEvents s, e.1 ∈ eventNames ∧ 0 ≤ e.2 ∧ e.2 ≤ 1440 := by
    intro e he
    refine ⟨?_, hb e he⟩
    simp only [scheduleEvents, List.mem_cons, List.not_mem_nil, or_false] at he
    rcases he with h | h | h | h | h | h | h | h | h | h <;>
      simp [h, eventNames]
  have hfold := foldl_nextEventStep_good h7 h8 (scheduleEvents s) none hl trivial
  have hnn : (scheduleEvents s).foldl (nextEventStep minutes) none ≠ none :=
    hfold.2 (Or.inr (by simp [scheduleEvents]))
  obtain ⟨⟨n, m⟩, hres⟩ : ∃ p, (scheduleEvents s).foldl (nextEventStep minutes) none = some p :=
    Option.ne_none_iff_exists'.mp hnn
  have heq : findNextEvent (some s) minutes = (n, m) := by
    show (match (scheduleEvents s).foldl (nextEventStep minutes) none with
      | none => ("--", 0) | some (n, m) => (n, m)) = (n, m)
    rw [hres]
  have hgood := hfold.1
  rw [hres] at hgood
  rw [heq]
  exact ⟨hgood.2.1, hgood.2.2, hgood.1⟩

/-- C10 (witness): the bounds at the section-8 scenario schedule at
noon. -/
theorem findNextEvent_bounds_witness :
    0 < (findNextEvent (some ⟨360, 1080, 720, 330, 1110, 300, 1140, 270, 1170⟩) 720).2 ∧
    (findNextEvent (some ⟨360, 1080, 720, 330, 1110, 300, 1140, 270, 1170⟩) 720).2 ≤ 1440 ∧
    (findNextEvent (some ⟨360, 1080, 720, 330, 1110, 300, 1140, 270, 1170⟩) 720).1 ∈ eventNames :=
  findNextEvent_bounds ⟨360, 1080, 720, 330, 1110, 300, 1140, 270, 1170⟩ 720
    (by norm_num) (by norm_num)
    (by
      intro e he
      simp only [scheduleEvents, List.mem_cons, List.not_mem_nil, or_false] at he
      rcases he with h | h | h | h | h | h | h | h | h | h <;>
        (subst h; norm_num))

/-! ### TimeNormalizer round-trip lemmas -/

lemma jsModR_mem {a b : ℝ} (hb : 0 < b) :
    -b < jsModR a b ∧ jsModR a b < b ∧ ∃ k : ℤ, jsModR a b = a - b * k := by
  unfold jsModR jsTruncR
  rcases le_or_lt 0 (a / b) with h | h
  · rw [if_pos h]
    have h1 : (⌊a / b⌋ : ℝ) * b ≤ a := (le_div_iff₀ hb).mp (Int.floor_le (a / b))
    have h2 : a < ((⌊a / b⌋ : ℝ) + 1) * b :=
      (div_lt_iff₀ hb).mp (Int.lt_floor_add_one (a / b))
    exact ⟨by nlinarith, by nlinarith, ⟨⌊a / b⌋, by ring⟩⟩
  · rw [if_neg (not_le.mpr h)]
    have h1 : a ≤ (⌈a / b⌉ : ℝ) * b := (div_le_iff₀ hb).mp (Int.le_ceil (a / b))
    have hc : (⌈a / b⌉ : ℝ) < a / b + 1 := Int.ceil_lt_add_one (a / b)
    have h2 : ((⌈a / b⌉ : ℝ) - 1) * b < a := (lt_div_iff₀ hb).mp (by linarith)
    exact ⟨by nlinarith, by nlinarith, ⟨⌈a / b⌉, by ring⟩⟩

lemma angleToMinutes_minutesToAngle (m : ℝ) (h0 : 0 ≤ m) (h1 : m < 1440) :
    angleToMinutes (minutesToAngle m) = m := by
  have hπ := Real.pi_pos
  have h2π : (0:ℝ) < 2 * Real.pi := by linarith
  simp only [minutesToAngle, angleToMinutes]
  set a : ℝ := m / (24 * 60) * (2 * Real.pi) - Real.pi / 2 with ha
  have hq : a / (2 * Real.pi) = m / 1440 - 1 / 4 := by
    rw [ha]
    field_simp
    ring
  have hm0 : (0:ℝ) ≤ m / 1440 := by positivity
  have hm1 : m / 1440 < 1 := (div_lt_one (by norm_num)).mpr h1
  have htr : jsTruncR (a / (2 * Real.pi)) = 0 := by
    unfold jsTruncR
    split_ifs with hs
    · exact Int.floor_eq_zero_iff.mpr (Set.mem_Ico.mpr ⟨hs, by rw [hq]; linarith⟩)
    · exact Int.ceil_eq_zero_iff.mpr
        (Set.mem_Ioc.mpr ⟨by rw [hq]; linarith, (not_le.mp hs).le⟩)
  have hmod : jsModR a (2 * Real.pi) = a := by
    rw [jsModR, htr]
    push_cast
    ring
  rw [hmod]
  by_cases hneg : a < 0
  · rw [if_pos hneg]
    have hin : (a + 2 * Real.pi + Real.pi / 2) / (2 * Real.pi) = m / 1440 + 1 := by
      rw [ha]
      field_simp
      ring
    rw [hin]
    have hfl : jsTruncR (m / 1440 + 1) = 1 := by
      unfold jsTruncR
      rw [if_pos (by linarith), Int.floor_add_one,
        Int.floor_eq_zero_iff.mpr (Set.mem_Ico.mpr ⟨hm0, hm1⟩)]
      norm_num
    rw [jsModR, div_one, hfl]
    push_cast
    field_simp
    norm_num
  · rw [if_neg hneg]
    have hin : (a + Real.pi / 2) / (2 * Real.pi) = m / 1440 := by
      rw [ha]
      field_simp
      ring
    rw [hin]
    have hfl : jsTruncR (m / 1440) = 0 := by
      unfold jsTruncR
      rw [if_pos hm0]
      exact Int.floor_eq_zero_iff.mpr (Set.mem_Ico.mpr ⟨hm0, hm1⟩)
    rw [jsModR, div_one, hfl]
    push_cast
    field_simp
    norm_num

lemma minutesToAngle_angleToMinutes (angle : ℝ) :
    ∃ k : ℤ, minutesToAngle (angleToMinutes angle) = angle + 2 * Real.pi * k ∧
      -(Real.pi / 2) ≤ minutesToAngle (angleToMinutes angle) ∧
      minutesToAngle (angleToMinutes angle) < 3 * Real.pi / 2 := by
  have hπ := Real.pi_pos
  have h2π : (0:ℝ) < 2 * Real.pi := by linarith
  obtain ⟨ht1, ht2, k1, hk1⟩ := jsModR_mem (a := angle) h2π
  set t0 := jsModR angle (2 * Real.pi) with ht0
  set n : ℝ := if t0 < 0 then t0 + 2 * Real.pi else t0 with hn
  have hn0 : 0 ≤ n := by
    rw [hn]
    split_ifs with h
    · linarith
    · linarith [not_lt.mp h]
  have hn1 : n < 2 * Real.pi := by
    rw [hn]
    split_ifs with h
    · linarith
    · exact ht2
  have hnk : ∃ k : ℤ, n = angle + 2 * Real.pi * k := by
    rw [hn]
    split_ifs with h
    · exact ⟨1 - k1, by rw [hk1]; push_cast; ring⟩
    · exact ⟨-k1, by rw [hk1]; push_cast; ring⟩
  obtain ⟨k2, hk2⟩ := hnk
  set p : ℝ := (n + Real.pi / 2) / (2 * Real.pi) with hp
  have hp0 : 0 ≤ p := div_nonneg (by linarith) h2π.le
  have hmodp : jsModR p 1 = p - ⌊p⌋ := by
    simp only [jsModR, jsTruncR]
    rw [if_pos (by positivity : (0:ℝ) ≤ p / 1), div_one]
    ring
  have hatm : angleToMinutes angle = (p - ⌊p⌋) * (24 * 60) := by
    simp only [angleToMinutes]
    rw [← ht0, ← hn, ← hp, hmodp]
  have hfinal : minutesToAngle ((p - ⌊p⌋) * (24 * 60)) =
      (p - ⌊p⌋) * (2 * Real.pi) - Real.pi / 2 := by
    simp only [minutesToAngle]
    have hdm : (p - ⌊p⌋) * (24 * 60) / (24 * 60) = p - ⌊p⌋ := by
      field_simp
    rw [hdm]
  have hpn : p * (2 * Real.pi) = n + Real.pi / 2 := by
    rw [hp]
    field_simp
    ring
  have hexp : (p - ⌊p⌋) * (2 * Real.pi) - Real.pi / 2 = n - 2 * Real.pi * ⌊p⌋ := by
    linear_combination hpn
  rcases lt_or_le p 1 with hc | hc
  · have hf : (⌊p⌋ : ℤ) = 0 := Int.floor_eq_zero_iff.mpr (Set.mem_Ico.mpr ⟨hp0, hc⟩)
    have hres : minutesToAngle (angleToMinutes angle) = n := by
      rw [hatm, hfinal, hexp, hf]
      push_cast
      ring
    have hn32 : n < 3 * Real.pi / 2 := by
      rw [hp, div_lt_one h2π] at hc
      linarith
    exact ⟨k2, hres.trans hk2, by rw [hres]; linarith, by rw [hres]; linarith⟩
  · have hf : (⌊p⌋ : ℤ) = 1 := by
      rw [Int.floor_eq_iff]
      constructor
      · exact_mod_cast hc
      · have hpub : p < 5/4 := by
          rw [hp, div_lt_iff₀ h2π]
          linarith
        push_cast
        linarith
    have hres : minutesToAngle (angleToMinutes angle) = n - 2 * Real.pi := by
      rw [hatm, hfinal, hexp, hf]
      push_cast
      ring
    have hn32 : 3 * Real.pi / 2 ≤ n := by
      rw [hp, le_div_iff₀ h2π] at hc
      linarith
    refine ⟨k2 - 1, ?_, by rw [hres]; linarith, by rw [hres]; linarith⟩
    rw [hres, hk2]
    push_cast
    ring

/-- C5: the time/angle conversions are exact inverses — for every
minute value in `[0, 1440)`, `angleToMinutes (minutesToAngle m) = m`
exactly (in particular at the boundaries 0, 360, 720, 1080), and for
every angle, `minutesToAngle (angleToMinutes angle)` is the unique
representative of the angle modulo `2π` in the canonical domain
`[−π/2, 3π/2)`. -/
theorem angle_minutes_roundtrip :
    (∀ m : ℝ, 0 ≤ m → m < 1440 → angleToMinutes (minutesToAngle m) = m) ∧
    (∀ angle : ℝ, ∃ k : ℤ,
      minutesToAngle (angleToMinutes angle) = angle + 2 * Real.pi * k ∧
      -(Real.pi / 2) ≤ minutesToAngle (angleToMinutes angle) ∧
      minutesToAngle (angleToMinutes angle) < 3 * Real.pi / 2) :=
  ⟨fun m h0 h1 => angleToMinutes_minutesToAngle m h0 h1,
   fun angle => minutesToAngle_angleToMinutes angle⟩

/-- C5 (witness): the forward round trip at the boundary minutes 0,
360, 720 and 1080. -/
theorem angle_minutes_roundtrip_witness :
    angleToMinutes (minutesToAngle 0) = 0 ∧
    angleToMinutes (minutesToAngle 360) = 360 ∧
    angleToMinutes (minutesToAngle 720) = 720 ∧
    angleToMinutes (minutesToAngle 1080) = 1080 :=
  ⟨angle_minutes_roundtrip.1 0 (by norm_num) (by norm_num),
   angle_minutes_roundtrip.1 360 (by norm_num) (by norm_num),
   angle_minutes_roundtrip.1 720 (by norm_num) (by norm_num),
   angle_minutes_roundtrip.1 1080 (by norm_num) (by norm_num)⟩
